import Mathlib

/-!
Verification of the DTEK shutdown-monitor core (bot.py / check.py / dtek_client.py).

The upstream JSON payload is embedded as a structure in which every field is
optional: `none` stands for a key that is absent or bound to JSON `null`
(the Python code reads every such field through `dict.get` combined with the
`or` operator, under which an absent key and a `null` value behave alike;
the one place where a `null` value is observable — a `null` hour status read
through a defaulted `dict.get` — is modelled by an `Option` value inside the
hours map).  Python string truthiness (`""` is falsy) and `str.strip()` are
modelled explicitly.
-/

namespace DTEK

/-- Python `str.strip()` whitespace set: space, tab, newline, carriage
return, vertical tab, form feed. -/
def isPySpace (c : Char) : Bool :=
  c = ' ' || c = '\t' || c = '\n' || c = '\r' || c = Char.ofNat 11 || c = Char.ofNat 12

/-- Strip leading and trailing whitespace from a character list. -/
def stripChars (l : List Char) : List Char :=
  ((l.dropWhile isPySpace).reverse.dropWhile isPySpace).reverse

/-- Python `s.strip()`. -/
def pyStrip (s : String) : String := ⟨stripChars s.data⟩

/-- Python `d.get(k)` on a string-keyed dict, embedded as association-list
lookup (Python dict keys are unique, so first match is the match). -/
def dget {α : Type} (m : List (String × α)) (k : String) : Option α :=
  (m.find? (fun p => p.1 == k)).map (fun p => p.2)

/-- Python `a or b` where `a` is an optional string (`none` = absent key or
`null`) and the empty string is falsy. -/
def strOrElse (a : Option String) (b : String) : String :=
  match a with
  | some s => if s = "" then b else s
  | none => b

/-- Python truthiness of an optional string value. -/
def truthyOptStr (a : Option String) : Bool :=
  match a with
  | some s => s != ""
  | none => false

/-- Python `a or b` where `a` is a possibly-absent, possibly-`null`
dict/list value and emptiness is falsy. -/
def orNonempty {α : Type} (a : Option (Option (List α))) (b : List α) : List α :=
  match a with
  | some (some l) => if l.isEmpty then b else l
  | _ => b

/-- Python `f"{x}"` for a possibly-`None` string value. -/
def pyShow (o : Option String) : String := o.getD "None"

/-- A JSON day key, which the provider stores "sometimes as int, sometimes
as str" (comment in `summarize_fact_for_today`). -/
inductive DayKey where
  | istr : String → DayKey
  | inum : Int → DayKey
deriving DecidableEq

/-- Python `str(today_ts)` where `today_ts` may be `None`, an int or a str. -/
def pyStrOfDayOpt : Option DayKey → String
  | none => "None"
  | some (DayKey.istr s) => s
  | some (DayKey.inum n) => toString n

/-- Hour slot -> status code; an hour bound to `none` is a JSON `null`
status (observable through `hours.get(key, "—")`). -/
abbrev HoursMap := List (String × Option String)

/-- Queue code -> hours table. -/
abbrev FactDay := List (String × Option HoursMap)

/-- Day key (as string, as JSON objects force) -> per-queue tables. -/
abbrev FactDayMap := List (String × Option FactDay)

/-- Hour key -> list of labels (`preset.time_zone`). -/
abbrev TimeZoneMap := List (String × Option (List String))

/-- Status code -> human label (`preset.time_type`). -/
abbrev TimeTypeMap := List (String × Option String)

instance : DecidableEq (Option HoursMap) :=
  @Option.instDecidableEq _ inferInstance

instance : DecidableEq (Option FactDay) :=
  @Option.instDecidableEq _ inferInstance

instance : DecidableEq (Option FactDayMap) :=
  @Option.instDecidableEq _ inferInstance

instance : DecidableEq (Option TimeZoneMap) :=
  @Option.instDecidableEq _ inferInstance

/-- One entry of the payload's `data` map: `sub_type_reason` holds the
queue codes for a house. -/
structure HouseItem where
  sub_type_reason : Option (List String) := none
deriving DecidableEq

/-- The payload's `fact` sub-object. -/
structure FactPart where
  today : Option DayKey := none
  update : Option String := none
  updateFact : Option String := none
  data : Option FactDayMap := none
deriving DecidableEq

/-- The payload's `preset` sub-object. -/
structure PresetPart where
  time_zone : Option TimeZoneMap := none
  time_type : Option TimeTypeMap := none
deriving DecidableEq

/-- The provider's SchedulePayload; every field may be absent/null. -/
structure Payload where
  result : Option Bool := none
  text : Option String := none
  data : Option (List (String × Option HouseItem)) := none
  updateTimestamp : Option String := none
  fact : Option FactPart := none
  preset : Option PresetPart := none
deriving DecidableEq

/-- `_make_update_marker` (bot.py 241-257, check.py 231-247) and
`make_update_marker` (dtek_client.py 141-151); the `isinstance(j, dict)`
test is identically true in this embedding, where a payload is always a
dict. -/
def make_update_marker (j : Payload) : String :=
  let ut := pyStrip (j.updateTimestamp.getD "")
  if ut ≠ "" then "updateTimestamp:" ++ ut
  else
    let fact := j.fact.getD {}
    let fu := pyStrip (strOrElse fact.update (strOrElse fact.updateFact ""))
    if fu ≠ "" then "fact.update:" ++ fu
    else "unknown"

/-- `get_house_queue` (bot.py 108-113): `m = j.get("data") or {}`,
`item = m.get(house) or {}`, `reasons = item.get("sub_type_reason") or []`,
`reasons[0] if reasons else None`. -/
def get_house_queue (j : Payload) (house : String) : Option String :=
  let m := j.data.getD []
  let item := ((dget m house).join).getD {}
  let reasons := item.sub_type_reason.getD []
  reasons.head?

/-- Python truthiness of `fact.get("today")` (`None`, `0` and `""` are
falsy). -/
def dayOptTruthy : Option DayKey → Bool
  | none => false
  | some (DayKey.istr s) => s != ""
  | some (DayKey.inum n) => n != 0

/-- `preset = j.get("preset") or {}` then `preset.get("time_zone") or {}`
(bot.py 118-119). -/
def resolveTimeZone (j : Payload) : TimeZoneMap :=
  ((j.preset.getD {}).time_zone).getD []

/-- `preset.get("time_type") or {}` (bot.py 120). -/
def resolveTimeType (j : Payload) : TimeTypeMap :=
  ((j.preset.getD {}).time_type).getD []

/-- `fact.get("today")` with `fact = j.get("fact") or {}` (bot.py 117,122). -/
def todayKey (j : Payload) : Option DayKey :=
  (j.fact.getD {}).today

/-- `fact_day = data.get(str(today_ts)) or data.get(today_ts) or {}`
(bot.py 123-126): JSON object keys are strings, so the second lookup can
only hit when `today_ts` itself is a string. -/
def resolveFactDay (j : Payload) : FactDay :=
  let fact := j.fact.getD {}
  let data := fact.data.getD []
  let alt : Option (Option FactDay) :=
    match fact.today with
    | some (DayKey.istr s) => dget data s
    | _ => none
  orNonempty (dget data (pyStrOfDayOpt fact.today)) (orNonempty alt [])

/-- `hours = fact_day.get(queue) or {}` (bot.py 127). -/
def resolveHours (j : Payload) (queue : String) : HoursMap :=
  orNonempty (dget (resolveFactDay j) queue) []

/-- Synthesized hour label `f"{h:02d}?"` used when `time_zone` has no entry
for the hour (bot.py 135). -/
def hourFallbackLabel (h : Nat) : String :=
  (if h < 10 then "0" ++ toString h else toString h) ++ "?"

/-- `slot = (tz.get(key) or [f"{h:02d}?"])[0]` (bot.py 135); the list is
nonempty in both branches, so the `""` default of `headD` is unreachable. -/
def slotFor (tz : TimeZoneMap) (h : Nat) : String :=
  (orNonempty (dget tz (toString h)) [hourFallbackLabel h]).headD ""

/-- `code = hours.get(key, "—")` (bot.py 136): the default applies only
when the key is absent; a JSON `null` status comes through as `None`. -/
def codeFor (hours : HoursMap) (h : Nat) : Option String :=
  match dget hours (toString h) with
  | none => some "—"
  | some v => v

/-- `human = time_type.get(code, code)` (bot.py 137). -/
def humanFor (tt : TimeTypeMap) (code : Option String) : Option String :=
  match code with
  | none => none
  | some c =>
    match dget tt c with
    | none => some c
    | some t => t

/-- `f"{slot}: {code} ({human})"` (bot.py 138). -/
def entryLine (slot : String) (code human : Option String) : String :=
  slot ++ ": " ++ pyShow code ++ " (" ++ pyShow human ++ ")"

/-- The loop `for h in range(1, 25)` of bot.py 133-138, as the ordered
sequence of (hourLabel, statusCode, humanLabel) triples. -/
def forecastEntries (tz : TimeZoneMap) (tt : TimeTypeMap) (hours : HoursMap) :
    List (String × Option String × Option String) :=
  (List.range 24).map (fun i =>
    let h := i + 1
    let code := codeFor hours h
    (slotFor tz h, code, humanFor tt code))

/-- The "no data" result of `summarize_fact_for_today` (bot.py 130). -/
def noDataMsg : String := "ℹ️ Немає fact-даних на сьогодні для цієї черги."

/-- Header of the forecast summary (bot.py 139). -/
def factHeader : String := "📌 FACT (сьогодні):\n"

/-- `summarize_fact_for_today` (bot.py 116-139). -/
def summarize_fact_for_today (j : Payload) (queue : String) : String :=
  let hours := resolveHours j queue
  if !(dayOptTruthy (todayKey j)) || hours.isEmpty then noDataMsg
  else
    factHeader ++ String.intercalate "\n"
      ((forecastEntries (resolveTimeZone j) (resolveTimeType j) hours).map
        (fun e => entryLine e.1 e.2.1 e.2.2))

/-- `format_house_info` (bot.py 85-105).  The `isinstance(j, dict)` branch
is identically skipped in this embedding; `house not in m` is a presence
test (a house bound to `null` counts as present); `j.get("text", "unknown")`
defaults only for an absent key. -/
def format_house_info (street_ui house : String) (j : Payload) : String :=
  if j.result ≠ some true then "❌ Помилка: " ++ (j.text.getD "unknown")
  else
    let m := j.data.getD []
    match dget m house with
    | none =>
      let sample := String.intercalate ", " ((m.map (fun p => p.1)).take 15)
      "⚠️ Будинок " ++ house ++ " не знайдено. Приклади ключів: " ++ sample ++ " ..."
    | some itemOpt =>
      let item := itemOpt.getD {}
      let reasons := String.intercalate ", " (item.sub_type_reason.getD [])
      let upd := match j.updateTimestamp with
        | some s => if s = "" then "—" else s
        | none => "—"
      "🔌 " ++ street_ui ++ ", " ++ house ++ "\n" ++
        "Тип: " ++ (if reasons = "" then "—" else reasons) ++ "\n" ++
        "Оновлено: " ++ upd

/-- The change-notification text of bot.py 317-321: `format_house_info`
followed, when `get_house_queue` is truthy, by the queue tag and
`summarize_fact_for_today`. -/
def notifyText (street_ui house : String) (j : Payload) : String :=
  let msg := format_house_info street_ui house j
  match get_house_queue j house with
  | some q =>
    if q = "" then msg
    else msg ++ "\n\n🏷️ Черга: " ++ q ++ "\n\n" ++ summarize_fact_for_today j q
  | none => msg

/-- One user's stored configuration (a JSON dict in `bot_state.json`);
`none` is an absent key. -/
structure Cfg where
  street : Option String := none
  street_ui : Option String := none
  house : Option String := none
  last_marker : Option String := none
  last_updateTimestamp : Option String := none
  last_error : Option String := none
deriving DecidableEq

/-- Outcome of `fetch_dtek` for one subscription in one cycle: a payload,
or the stringified exception `f"{type(e).__name__}: {e}"`. -/
inductive FetchResult where
  | ok : Payload → FetchResult
  | fail : String → FetchResult
deriving DecidableEq

/-- A message sent to the subscriber during one cycle. -/
inductive Event where
  | changed : String → Event
  | errored : String → Event
deriving DecidableEq

/-- The fetch-failure branch of `monitor_job` (bot.py 295-303): store and
announce the error only when it differs from the recorded one. -/
def monitorFailure (cfg : Cfg) (e : String) : Cfg × List Event :=
  if cfg.last_error ≠ some e then
    ({ cfg with last_error := some e },
     [Event.errored ("⚠️ Помилка запиту DTEK:\n" ++ e)])
  else (cfg, [])

/-- The error-recovery clear of bot.py 308-309: `if cfg.get("last_error"):
cfg["last_error"] = ""`. -/
def clearedErr (cfg : Cfg) : Cfg :=
  if truthyOptStr cfg.last_error then { cfg with last_error := some "" } else cfg

/-- The fetch-success branch of `monitor_job` (bot.py 305-328): clear a
recorded error, then notify exactly when the marker changed. -/
def monitorSuccess (cfg : Cfg) (street_ui house last_marker : String)
    (j : Payload) : Cfg × List Event :=
  let marker := make_update_marker j
  let cfg := clearedErr cfg
  if marker ≠ last_marker then
    ({ cfg with last_marker := some marker,
                last_updateTimestamp := some (j.updateTimestamp.getD "") },
     [Event.changed (notifyText street_ui house j)])
  else
    (cfg, [])

/-- The per-subscription body of `monitor_job` (bot.py 279-328): read the
stored fields (stripped), skip a blank address, then dispatch on the fetch
outcome, returning the persisted configuration and the emitted events. -/
def monitorStep (cfg : Cfg) (r : FetchResult) : Cfg × List Event :=
  let street := pyStrip (cfg.street.getD "")
  let house := pyStrip (cfg.house.getD "")
  let street_ui := pyStrip (strOrElse cfg.street_ui street)
  let last_marker := pyStrip (cfg.last_marker.getD "")
  if street = "" ∨ house = "" then (cfg, [])
  else
    match r with
    | FetchResult.fail e => monitorFailure cfg e
    | FetchResult.ok j => monitorSuccess cfg street_ui house last_marker j

/-- The registration save of `cmd_set` (bot.py 368-376) and `set_house`
(check.py 377-385): store the address and reset the marker, timestamp and
error fields to the empty string ("force notify on next poll"). -/
def registerAddress (cfg : Cfg) (street house : String) : Cfg :=
  { cfg with street := some street, street_ui := some street, house := some house,
             last_marker := some "", last_updateTimestamp := some "",
             last_error := some "" }

/-! Supporting lemmas about stripping and markers. -/

theorem string_eq_of_data (a b : String) (h : a.data = b.data) : a = b := by
  cases a; cases b; exact congrArg String.mk h

theorem data_append (a b : String) : (a ++ b).data = a.data ++ b.data := rfl

theorem dropWhile_head_false {α : Type} (p : α → Bool) (l : List α) (c : α)
    (t : List α) (h : l.dropWhile p = c :: t) : p c = false := by
  induction l with
  | nil => simp [List.dropWhile] at h
  | cons a l ih =>
    rw [List.dropWhile_cons] at h
    split at h
    · exact ih h
    · next hna =>
      injection h with h1 _
      subst h1
      simpa using hna

theorem reverse_stripChars (u : List Char) :
    (stripChars u).reverse = (u.dropWhile isPySpace).reverse.dropWhile isPySpace := by
  simp [stripChars]

theorem stripChars_prefix_strip (a u : List Char) (c : Char) (a' : List Char)
    (ha : a = c :: a') (hc : isPySpace c = false) (ht : stripChars u ≠ []) :
    stripChars (a ++ stripChars u) = a ++ stripChars u := by
  set t := stripChars u with htdef
  obtain ⟨e, t₂, he⟩ : ∃ e t₂, t.reverse = e :: t₂ := by
    cases hh : t.reverse with
    | nil => exact absurd (List.reverse_eq_nil_iff.mp hh) ht
    | cons e t₂ => exact ⟨e, t₂, rfl⟩
  have hesp : isPySpace e = false := by
    apply dropWhile_head_false isPySpace ((u.dropWhile isPySpace).reverse) e t₂
    rw [← reverse_stripChars, ← htdef]
    exact he
  unfold stripChars
  rw [ha, List.cons_append, List.dropWhile_cons, if_neg (by simp [hc]),
    ← List.cons_append, ← ha, List.reverse_append, he, List.cons_append,
    List.dropWhile_cons, if_neg (by simp [hesp]), ← List.cons_append, ← he,
    ← List.reverse_append, List.reverse_reverse]

theorem stripChars_of_pyStrip_ne (u : String) (h : pyStrip u ≠ "") :
    stripChars u.data ≠ [] := by
  intro hd
  exact h (string_eq_of_data _ _ (by simpa [pyStrip] using hd))

theorem pyStrip_prefixed (pre u : String) (c : Char) (pre' : List Char)
    (hpre : pre.data = c :: pre') (hc : isPySpace c = false)
    (hu : pyStrip u ≠ "") :
    pyStrip (pre ++ pyStrip u) = pre ++ pyStrip u := by
  refine string_eq_of_data _ _ ?_
  show stripChars (pre ++ pyStrip u).data = (pre ++ pyStrip u).data
  rw [data_append]
  have : (pyStrip u).data = stripChars u.data := rfl
  rw [this]
  exact stripChars_prefix_strip pre.data u.data c pre' hpre hc
    (stripChars_of_pyStrip_ne u hu)

/-- Markers are already stripped: re-reading a stored marker through
`(cfg.get("last_marker") or "").strip()` gives it back unchanged. -/
theorem pyStrip_make_update_marker (j : Payload) :
    pyStrip (make_update_marker j) = make_update_marker j := by
  simp only [make_update_marker]
  split
  · next h =>
    exact pyStrip_prefixed "updateTimestamp:" _ 'u' "pdateTimestamp:".data rfl
      (by decide) h
  · split
    · next h =>
      exact pyStrip_prefixed "fact.update:" _ 'f' "act.update:".data rfl
        (by decide) h
    · decide

/-- A marker is never the empty string. -/
theorem make_update_marker_ne_empty (j : Payload) : make_update_marker j ≠ "" := by
  simp only [make_update_marker]
  split
  · intro h
    have := congrArg String.data h
    rw [data_append] at this
    simp at this
  · split
    · intro h
      have := congrArg String.data h
      rw [data_append] at this
      simp at this
    · decide

/-- A marker takes one of three shapes: prefixed `updateTimestamp`,
prefixed fact fallback, or the `"unknown"` sentinel. -/
theorem make_update_marker_forms (j : Payload) :
    (∃ t, make_update_marker j = "updateTimestamp:" ++ t) ∨
    (∃ t, make_update_marker j = "fact.update:" ++ t) ∨
    make_update_marker j = "unknown" := by
  simp only [make_update_marker]
  split
  · exact Or.inl ⟨_, rfl⟩
  · split
    · exact Or.inr (Or.inl ⟨_, rfl⟩)
    · exact Or.inr (Or.inr rfl)

/-! Supporting lemmas about the monitor step. -/

theorem clearedErr_street (cfg : Cfg) : (clearedErr cfg).street = cfg.street := by
  unfold clearedErr; split <;> rfl

theorem clearedErr_street_ui (cfg : Cfg) : (clearedErr cfg).street_ui = cfg.street_ui := by
  unfold clearedErr; split <;> rfl

theorem clearedErr_house (cfg : Cfg) : (clearedErr cfg).house = cfg.house := by
  unfold clearedErr; split <;> rfl

theorem clearedErr_last_marker (cfg : Cfg) :
    (clearedErr cfg).last_marker = cfg.last_marker := by
  unfold clearedErr; split <;> rfl

theorem clearedErr_falsy (cfg : Cfg) :
    truthyOptStr (clearedErr cfg).last_error = false := by
  unfold clearedErr
  split
  · rfl
  · next h => simpa using h

theorem clearedErr_of_falsy (cfg : Cfg) (h : truthyOptStr cfg.last_error = false) :
    clearedErr cfg = cfg := by
  unfold clearedErr
  rw [if_neg (by simp [h])]

/-- On a fetch success with a non-blank stored address, the step runs the
success branch. -/
theorem monitorStep_ok (cfg : Cfg) (j : Payload)
    (hs : pyStrip (cfg.street.getD "") ≠ "") (hh : pyStrip (cfg.house.getD "") ≠ "") :
    monitorStep cfg (FetchResult.ok j) =
      monitorSuccess cfg
        (pyStrip (strOrElse cfg.street_ui (pyStrip (cfg.street.getD ""))))
        (pyStrip (cfg.house.getD ""))
        (pyStrip (cfg.last_marker.getD "")) j := by
  simp only [monitorStep]
  rw [if_neg (not_or.mpr ⟨hs, hh⟩)]

/-- On a fetch failure with a non-blank stored address, the step runs the
failure branch. -/
theorem monitorStep_fail (cfg : Cfg) (e : String)
    (hs : pyStrip (cfg.street.getD "") ≠ "") (hh : pyStrip (cfg.house.getD "") ≠ "") :
    monitorStep cfg (FetchResult.fail e) = monitorFailure cfg e := by
  simp only [monitorStep]
  rw [if_neg (not_or.mpr ⟨hs, hh⟩)]

/-- Success branch when the marker is unchanged: only the recovery clear is
persisted and no event is emitted. -/
theorem monitorSuccess_of_eq (cfg : Cfg) (a b lm : String) (j : Payload)
    (h : make_update_marker j = lm) :
    monitorSuccess cfg a b lm j = (clearedErr cfg, []) := by
  simp only [monitorSuccess]
  rw [if_neg (by simp [h])]

/-- Success branch when the marker changed: marker and timestamp are
stored and one change event is emitted. -/
theorem monitorSuccess_of_ne (cfg : Cfg) (a b lm : String) (j : Payload)
    (h : make_update_marker j ≠ lm) :
    monitorSuccess cfg a b lm j =
      ({ clearedErr cfg with last_marker := some (make_update_marker j),
                             last_updateTimestamp := some (j.updateTimestamp.getD "") },
       [Event.changed (notifyText a b j)]) := by
  simp only [monitorSuccess]
  rw [if_pos h]

/-- Failure branch when the error string is new. -/
theorem monitorFailure_of_ne (cfg : Cfg) (e : String) (h : cfg.last_error ≠ some e) :
    monitorFailure cfg e =
      ({ cfg with last_error := some e },
       [Event.errored ("⚠️ Помилка запиту DTEK:\n" ++ e)]) := by
  simp only [monitorFailure]
  rw [if_pos h]

/-- Failure branch when the error string is already recorded. -/
theorem monitorFailure_of_eq (cfg : Cfg) (e : String) (h : cfg.last_error = some e) :
    monitorFailure cfg e = (cfg, []) := by
  simp only [monitorFailure]
  rw [if_neg (by simp [h])]

/-! Claim theorems. -/

/-- Counterexample payloads for C1: identical, non-empty (but
whitespace-only) `updateTimestamp`, differing `fact.update`. -/
def cex1a : Payload := { updateTimestamp := some " ", fact := some { update := some "a" } }

/-- Second counterexample payload for C1. -/
def cex1b : Payload := { updateTimestamp := some " ", fact := some { update := some "b" } }

/-- C1 (counterexample): two payloads whose `updateTimestamp` fields are
identical and non-empty (the one-space string) yield different markers,
because the code strips whitespace before testing the field and then falls
back to the differing `fact.update` fields. -/
theorem marker_whitespace_updateTimestamp_counterexample :
    cex1a.updateTimestamp = cex1b.updateTimestamp ∧
    cex1a.updateTimestamp = some " " ∧ (" " : String) ≠ "" ∧
    make_update_marker cex1a = "fact.update:a" ∧
    make_update_marker cex1b = "fact.update:b" ∧
    make_update_marker cex1a ≠ make_update_marker cex1b := by
  refine ⟨rfl, rfl, by decide, by decide, by decide, by decide⟩

/-- C1 (amended): for payloads whose `updateTimestamp` fields are identical
and non-blank (non-empty after stripping whitespace), the markers are equal
regardless of every other field, and the marker is derived from the
`updateTimestamp` field. -/
theorem marker_agrees_on_nonblank_updateTimestamp (j1 j2 : Payload)
    (hEq : j1.updateTimestamp = j2.updateTimestamp)
    (hNB : pyStrip (j1.updateTimestamp.getD "") ≠ "") :
    make_update_marker j1 = make_update_marker j2 ∧
    make_update_marker j1 = "updateTimestamp:" ++ pyStrip (j1.updateTimestamp.getD "") := by
  have h2 : pyStrip (j2.updateTimestamp.getD "") ≠ "" := by rw [← hEq]; exact hNB
  constructor
  · simp only [make_update_marker]
    rw [if_pos hNB, if_pos h2, hEq]
  · simp only [make_update_marker]
    rw [if_pos hNB]

/-- Witness payload for the amended C1 (fact fallback present). -/
def w1a : Payload :=
  { updateTimestamp := some "16:33 19.12.2025", fact := some { update := some "a" } }

/-- Witness payload for the amended C1 (no fact fallback). -/
def w1b : Payload := { updateTimestamp := some "16:33 19.12.2025" }

/-- Witness for the amended C1 at concrete payloads. -/
theorem marker_agrees_on_nonblank_updateTimestamp_witness :
    make_update_marker w1a = make_update_marker w1b ∧
    make_update_marker w1a = "updateTimestamp:16:33 19.12.2025" := by
  have h := marker_agrees_on_nonblank_updateTimestamp w1a w1b rfl (by decide)
  exact ⟨h.1, h.2.trans (by decide)⟩

/-- C7: the queue lookup returns `none` when the house is absent from the
data map, when its entry is `null`, and when `sub_type_reason` is missing,
`null`-ish or empty; when the list is non-empty it returns its first
entry. -/
theorem queue_lookup_spec (j : Payload) (house : String) :
    (dget (j.data.getD []) house = none → get_house_queue j house = none) ∧
    (dget (j.data.getD []) house = some none → get_house_queue j house = none) ∧
    (∀ it, dget (j.data.getD []) house = some (some it) →
      (it.sub_type_reason = none ∨ it.sub_type_reason = some []) →
      get_house_queue j house = none) ∧
    (∀ it r rs, dget (j.data.getD []) house = some (some it) →
      it.sub_type_reason = some (r :: rs) →
      get_house_queue j house = some r) := by
  refine ⟨?_, ?_, ?_, ?_⟩
  · intro h; simp [get_house_queue, h]
  · intro h; simp [get_house_queue, h]
  · rintro it h (h2 | h2) <;> simp [get_house_queue, h, h2]
  · intro it r rs h h2; simp [get_house_queue, h, h2]

/-- Witness payload for C7: one house with reasons `["GPV1.1"]`. -/
def w7 : Payload :=
  { data := some [("12", some { sub_type_reason := some ["GPV1.1"] })] }

/-- Witness for C7: the round trip yields `"GPV1.1"`, and an absent house
yields `none`. -/
theorem queue_lookup_spec_witness :
    get_house_queue w7 "12" = some "GPV1.1" ∧ get_house_queue w7 "13" = none := by
  constructor
  · exact (queue_lookup_spec w7 "12").2.2.2
      { sub_type_reason := some ["GPV1.1"] } "GPV1.1" [] (by decide) rfl
  · exact (queue_lookup_spec w7 "13").1 (by decide)

/-- C9: one monitor step mutates only the marker, timestamp and error
fields; the address fields of the subscription are unchanged. -/
theorem monitor_step_address_frame (cfg : Cfg) (r : FetchResult) :
    (monitorStep cfg r).1.street = cfg.street ∧
    (monitorStep cfg r).1.street_ui = cfg.street_ui ∧
    (monitorStep cfg r).1.house = cfg.house := by
  simp only [monitorStep]
  split
  · exact ⟨rfl, rfl, rfl⟩
  · cases r with
    | fail e =>
      simp only [monitorFailure]
      split <;> exact ⟨rfl, rfl, rfl⟩
    | ok j =>
      simp only [monitorSuccess]
      split
      · exact ⟨clearedErr_street cfg, clearedErr_street_ui cfg, clearedErr_house cfg⟩
      · exact ⟨clearedErr_street cfg, clearedErr_street_ui cfg, clearedErr_house cfg⟩

/-- C10: every payload's marker is one of the three non-empty normal forms,
so a subscription whose stored marker is the empty string always compares
as changed on its next successful poll and gets exactly one change
notification. -/
theorem marker_nonempty_forms (j : Payload) :
    ((∃ t, make_update_marker j = "updateTimestamp:" ++ t) ∨
     (∃ t, make_update_marker j = "fact.update:" ++ t) ∨
     make_update_marker j = "unknown") ∧
    make_update_marker j ≠ "" ∧
    (∀ cfg : Cfg, cfg.last_marker = some "" →
      pyStrip (cfg.street.getD "") ≠ "" → pyStrip (cfg.house.getD "") ≠ "" →
      (monitorStep cfg (FetchResult.ok j)).2 =
        [Event.changed (notifyText
          (pyStrip (strOrElse cfg.street_ui (pyStrip (cfg.street.getD ""))))
          (pyStrip (cfg.house.getD "")) j)]) := by
  refine ⟨make_update_marker_forms j, make_update_marker_ne_empty j, ?_⟩
  intro cfg hm hs hh
  rw [monitorStep_ok cfg j hs hh, hm]
  rw [monitorSuccess_of_ne cfg _ _ _ j (by simpa using make_update_marker_ne_empty j)]

/-- Witness configuration for C10. -/
def w10cfg : Cfg := { street := some "S", house := some "5", last_marker := some "" }

/-- Witness for C10 at a concrete configuration and the all-absent
payload. -/
theorem marker_nonempty_forms_witness :
    (monitorStep w10cfg (FetchResult.ok {})).2 =
      [Event.changed (notifyText
        (pyStrip (strOrElse w10cfg.street_ui (pyStrip (w10cfg.street.getD ""))))
        (pyStrip (w10cfg.house.getD "")) {})] :=
  (marker_nonempty_forms {}).2.2 w10cfg rfl (by decide) (by decide)

/-- C2: on a successful fetch for an active subscription, comparing the
unknown sentinel to itself emits no change event, while an unknown-to-known
or known-to-unknown transition emits exactly one change event. -/
theorem unknown_sentinel_transition_policy (cfg : Cfg) (j : Payload)
    (hs : pyStrip (cfg.street.getD "") ≠ "") (hh : pyStrip (cfg.house.getD "") ≠ "") :
    (pyStrip (cfg.last_marker.getD "") = "unknown" → make_update_marker j = "unknown" →
      (monitorStep cfg (FetchResult.ok j)).2 = []) ∧
    (pyStrip (cfg.last_marker.getD "") = "unknown" → make_update_marker j ≠ "unknown" →
      ∃ m, (monitorStep cfg (FetchResult.ok j)).2 = [Event.changed m]) ∧
    (pyStrip (cfg.last_marker.getD "") ≠ "unknown" → make_update_marker j = "unknown" →
      ∃ m, (monitorStep cfg (FetchResult.ok j)).2 = [Event.changed m]) := by
  rw [monitorStep_ok cfg j hs hh]
  refine ⟨?_, ?_, ?_⟩
  · intro hlm hmk
    rw [monitorSuccess_of_eq cfg _ _ _ j (hmk.trans hlm.symm)]
  · intro hlm hmk
    rw [monitorSuccess_of_ne cfg _ _ _ j (by rw [hlm]; exact hmk)]
    exact ⟨_, rfl⟩
  · intro hlm hmk
    rw [monitorSuccess_of_ne cfg _ _ _ j (by rw [hmk]; exact fun h => hlm h.symm)]
    exact ⟨_, rfl⟩

/-- Witness configuration for C2: stored marker is the unknown sentinel. -/
def w2cfg : Cfg := { street := some "S", house := some "5", last_marker := some "unknown" }

/-- Witness for C2: unknown-to-unknown emits nothing; unknown-to-known
emits one change event. -/
theorem unknown_sentinel_transition_policy_witness :
    (monitorStep w2cfg (FetchResult.ok {})).2 = [] ∧
    (∃ m, (monitorStep w2cfg (FetchResult.ok { updateTimestamp := some "16:33" })).2 =
      [Event.changed m]) := by
  constructor
  · exact (unknown_sentinel_transition_policy w2cfg {} (by decide) (by decide)).1
      (by decide) (by decide)
  · exact (unknown_sentinel_transition_policy w2cfg { updateTimestamp := some "16:33" }
      (by decide) (by decide)).2.1 (by decide) (by decide)

/-- C4: for an active subscription, a first failing cycle with a fresh
error string emits one error event; a second failing cycle with the same
string persists nothing and emits nothing; a third failing cycle with a
different string emits a second error event and updates the stored error. -/
theorem error_storm_suppressed (cfg : Cfg) (e e' : String)
    (hs : pyStrip (cfg.street.getD "") ≠ "") (hh : pyStrip (cfg.house.getD "") ≠ "")
    (h0 : cfg.last_error ≠ some e) (hne : e' ≠ e) :
    (monitorStep cfg (FetchResult.fail e)).2 =
      [Event.errored ("⚠️ Помилка запиту DTEK:\n" ++ e)] ∧
    monitorStep (monitorStep cfg (FetchResult.fail e)).1 (FetchResult.fail e) =
      ((monitorStep cfg (FetchResult.fail e)).1, []) ∧
    (monitorStep (monitorStep cfg (FetchResult.fail e)).1 (FetchResult.fail e')).2 =
      [Event.errored ("⚠️ Помилка запиту DTEK:\n" ++ e')] ∧
    (monitorStep (monitorStep cfg (FetchResult.fail e)).1 (FetchResult.fail e')).1.last_error =
      some e' := by
  have h1 : monitorStep cfg (FetchResult.fail e) =
      ({ cfg with last_error := some e },
       [Event.errored ("⚠️ Помилка запиту DTEK:\n" ++ e)]) := by
    rw [monitorStep_fail cfg e hs hh, monitorFailure_of_ne cfg e h0]
  have hs2 : pyStrip (({ cfg with last_error := some e } : Cfg).street.getD "") ≠ "" := hs
  have hh2 : pyStrip (({ cfg with last_error := some e } : Cfg).house.getD "") ≠ "" := hh
  rw [h1]
  refine ⟨rfl, ?_, ?_, ?_⟩
  · show monitorStep { cfg with last_error := some e } (FetchResult.fail e) =
      ({ cfg with last_error := some e }, [])
    rw [monitorStep_fail _ e hs2 hh2, monitorFailure_of_eq _ e rfl]
  · show (monitorStep { cfg with last_error := some e } (FetchResult.fail e')).2 =
      [Event.errored ("⚠️ Помилка запиту DTEK:\n" ++ e')]
    rw [monitorStep_fail _ e' hs2 hh2,
      monitorFailure_of_ne _ e' (by simpa using Ne.symm hne)]
  · show (monitorStep { cfg with last_error := some e } (FetchResult.fail e')).1.last_error =
      some e'
    rw [monitorStep_fail _ e' hs2 hh2,
      monitorFailure_of_ne _ e' (by simpa using Ne.symm hne)]

/-- Witness configuration for C4. -/
def w4cfg : Cfg := { street := some "S", house := some "5" }

/-- Witness for C4 at concrete error strings. -/
theorem error_storm_suppressed_witness :
    (monitorStep w4cfg (FetchResult.fail "RuntimeError: x")).2 =
      [Event.errored ("⚠️ Помилка запиту DTEK:\n" ++ "RuntimeError: x")] ∧
    monitorStep (monitorStep w4cfg (FetchResult.fail "RuntimeError: x")).1
        (FetchResult.fail "RuntimeError: x") =
      ((monitorStep w4cfg (FetchResult.fail "RuntimeError: x")).1, []) := by
  have h := error_storm_suppressed w4cfg "RuntimeError: x" "RuntimeError: y"
    (by decide) (by decide) (by decide) (by decide)
  exact ⟨h.1, h.2.1⟩

/-- C8: registering an address resets the stored marker, timestamp and
error to the empty string, and the very next successful monitor poll then
emits exactly one change event. -/
theorem registration_reset_then_notify_once (cfg : Cfg) (street house : String)
    (j : Payload) (hs : pyStrip street ≠ "") (hh : pyStrip house ≠ "") :
    (registerAddress cfg street house).last_marker = some "" ∧
    (registerAddress cfg street house).last_updateTimestamp = some "" ∧
    (registerAddress cfg street house).last_error = some "" ∧
    (∃ m, (monitorStep (registerAddress cfg street house) (FetchResult.ok j)).2 =
      [Event.changed m]) := by
  refine ⟨rfl, rfl, rfl, ?_⟩
  have hs2 : pyStrip ((registerAddress cfg street house).street.getD "") ≠ "" := hs
  have hh2 : pyStrip ((registerAddress cfg street house).house.getD "") ≠ "" := hh
  rw [monitorStep_ok _ j hs2 hh2]
  rw [monitorSuccess_of_ne _ _ _ _ j (by simpa using make_update_marker_ne_empty j)]
  exact ⟨_, rfl⟩

/-- C3: for every subscription, a second monitor cycle against an
unchanged upstream payload emits no events and leaves the persisted
configuration — in particular `last_marker` — unchanged. -/
theorem second_cycle_idempotent (cfg : Cfg) (j : Payload) :
    monitorStep (monitorStep cfg (FetchResult.ok j)).1 (FetchResult.ok j) =
      ((monitorStep cfg (FetchResult.ok j)).1, []) := by
  by_cases hs : pyStrip (cfg.street.getD "") = ""
  · have h1 : monitorStep cfg (FetchResult.ok j) = (cfg, []) := by
      simp only [monitorStep]; rw [if_pos (Or.inl hs)]
    rw [h1]; exact h1
  by_cases hh : pyStrip (cfg.house.getD "") = ""
  · have h1 : monitorStep cfg (FetchResult.ok j) = (cfg, []) := by
      simp only [monitorStep]; rw [if_pos (Or.inr hh)]
    rw [h1]; exact h1
  rw [monitorStep_ok cfg j hs hh]
  by_cases hm : make_update_marker j = pyStrip (cfg.last_marker.getD "")
  · rw [monitorSuccess_of_eq cfg _ _ _ j hm]
    show monitorStep (clearedErr cfg) (FetchResult.ok j) = (clearedErr cfg, [])
    have hs2 : pyStrip ((clearedErr cfg).street.getD "") ≠ "" := by
      rw [clearedErr_street]; exact hs
    have hh2 : pyStrip ((clearedErr cfg).house.getD "") ≠ "" := by
      rw [clearedErr_house]; exact hh
    rw [monitorStep_ok _ j hs2 hh2]
    rw [monitorSuccess_of_eq _ _ _ _ j (by rw [clearedErr_last_marker]; exact hm)]
    rw [clearedErr_of_falsy _ (clearedErr_falsy cfg)]
  · rw [monitorSuccess_of_ne cfg _ _ _ j hm]
    show monitorStep ({ clearedErr cfg with last_marker := some (make_update_marker j), last_updateTimestamp := some (j.updateTimestamp.getD "") }) (FetchResult.ok j) = ({ clearedErr cfg with last_marker := some (make_update_marker j), last_updateTimestamp := some (j.updateTimestamp.getD "") }, [])
    set c2 : Cfg := { clearedErr cfg with last_marker := some (make_update_marker j), last_updateTimestamp := some (j.updateTimestamp.getD "") } with hc2
    have hs2 : pyStrip (c2.street.getD "") ≠ "" := by
      show pyStrip ((clearedErr cfg).street.getD "") ≠ ""
      rw [clearedErr_street]; exact hs
    have hh2 : pyStrip (c2.house.getD "") ≠ "" := by
      show pyStrip ((clearedErr cfg).house.getD "") ≠ ""
      rw [clearedErr_house]; exact hh
    rw [monitorStep_ok c2 j hs2 hh2]
    have hm2 : make_update_marker j = pyStrip (c2.last_marker.getD "") := by
      show make_update_marker j = pyStrip (make_update_marker j)
      exact (pyStrip_make_update_marker j).symm
    rw [monitorSuccess_of_eq c2 _ _ _ j hm2]
    have hf : truthyOptStr c2.last_error = false := by
      show truthyOptStr (clearedErr cfg).last_error = false
      exact clearedErr_falsy cfg
    rw [clearedErr_of_falsy c2 hf]

/-- C5: absent or null keys degrade gracefully: a missing `data` map makes
the queue lookup resolve to `none`; a missing `fact`, a missing or falsy
`fact.today` and a missing `fact.data` each make the forecast resolve to
the "no data" result; a payload with neither `updateTimestamp` nor `fact`
gets the `"unknown"` sentinel marker.  All three functions are total. -/
theorem schema_drift_degrades_gracefully (j : Payload) (house queue : String) :
    (j.data = none → get_house_queue j house = none) ∧
    (j.fact = none → summarize_fact_for_today j queue = noDataMsg) ∧
    (∀ fp, j.fact = some fp → fp.today = none →
      summarize_fact_for_today j queue = noDataMsg) ∧
    (∀ fp, j.fact = some fp → fp.data = none →
      summarize_fact_for_today j queue = noDataMsg) ∧
    (j.updateTimestamp = none → j.fact = none → make_update_marker j = "unknown") := by
  refine ⟨?_, ?_, ?_, ?_, ?_⟩
  · intro h; simp [get_house_queue, h, dget]
  · intro h
    simp [summarize_fact_for_today, todayKey, h, dayOptTruthy]
  · intro fp hf ht
    simp [summarize_fact_for_today, todayKey, hf, ht, dayOptTruthy]
  · intro fp hf hd
    have hhours : resolveHours j queue = [] := by
      have hfd : resolveFactDay j = [] := by
        simp only [resolveFactDay, hf, hd, Option.getD_some, Option.getD_none]
        cases fp.today with
        | none => simp [dget, orNonempty]
        | some dk => cases dk <;> simp [dget, orNonempty]
      simp [resolveHours, hfd, dget, orNonempty]
    simp [summarize_fact_for_today, hhours]
  · intro hu hf
    simp [make_update_marker, hu, hf, strOrElse, pyStrip, stripChars]

/-- Witness for C5 at the fully-absent payload. -/
theorem schema_drift_degrades_gracefully_witness :
    get_house_queue {} "12" = none ∧
    summarize_fact_for_today {} "GPV1.1" = noDataMsg ∧
    make_update_marker {} = "unknown" := by
  have h := schema_drift_degrades_gracefully {} "12" "GPV1.1"
  exact ⟨h.1 rfl, h.2.1 rfl, h.2.2.2.2 rfl rfl⟩

/-- C6: when the guard of `summarize_fact_for_today` passes (truthy
`fact.today` and nonempty resolved hours for the queue), the summary is
built from exactly 24 entries, one per hour 1..24 in ascending order; an
hour with no stored status gets the sentinel "—" code and only such hours
do; an untranslated status code is its own human label; and a missing hour
label is synthesized from the hour number. -/
theorem today_forecast_structure (j : Payload) (queue : String)
    (h1 : dayOptTruthy (todayKey j) = true)
    (h2 : (resolveHours j queue).isEmpty = false) :
    summarize_fact_for_today j queue =
      factHeader ++ String.intercalate "\n"
        ((forecastEntries (resolveTimeZone j) (resolveTimeType j)
          (resolveHours j queue)).map (fun e => entryLine e.1 e.2.1 e.2.2)) ∧
    (forecastEntries (resolveTimeZone j) (resolveTimeType j)
      (resolveHours j queue)).length = 24 ∧
    (∀ i, i < 24 →
      (forecastEntries (resolveTimeZone j) (resolveTimeType j)
        (resolveHours j queue)).get? i =
        some (slotFor (resolveTimeZone j) (i + 1),
          codeFor (resolveHours j queue) (i + 1),
          humanFor (resolveTimeType j) (codeFor (resolveHours j queue) (i + 1)))) ∧
    (∀ h, dget (resolveHours j queue) (toString h) = none →
      codeFor (resolveHours j queue) h = some "—") ∧
    (∀ h s, dget (resolveHours j queue) (toString h) = some s →
      codeFor (resolveHours j queue) h = s) ∧
    (∀ c, dget (resolveTimeType j) c = none →
      humanFor (resolveTimeType j) (some c) = some c) ∧
    (∀ h, dget (resolveTimeZone j) (toString h) = none →
      slotFor (resolveTimeZone j) h = hourFallbackLabel h) := by
  refine ⟨?_, ?_, ?_, ?_, ?_, ?_, ?_⟩
  · simp [summarize_fact_for_today, h1, h2]
  · simp [forecastEntries]
  · intro i hi
    simp [forecastEntries, List.getElem?_map, List.getElem?_range hi]
  · intro h hd; simp [codeFor, hd]
  · intro h s hd; simp [codeFor, hd]
  · intro c hc; simp [humanFor, hc]
  · intro h hz; simp [slotFor, hz, orNonempty]

/-- Witness payload for C6: today's table present for queue "Q1", hour 5
set to "off" with a translation, all other hours missing. -/
def w6 : Payload :=
  { fact := some { today := some (DayKey.inum 20250101),
                   data := some [("20250101", some [("Q1", some [("5", some "off")])])] },
    preset := some { time_type := some [("off", some "no power")] } }

/-- Witness for C6 at the concrete payload: 24 entries, sentinel at a
missing hour. -/
theorem today_forecast_structure_witness :
    (forecastEntries (resolveTimeZone w6) (resolveTimeType w6)
      (resolveHours w6 "Q1")).length = 24 ∧
    codeFor (resolveHours w6 "Q1") 13 = some "—" ∧
    codeFor (resolveHours w6 "Q1") 5 = some "off" := by
  have h := today_forecast_structure w6 "Q1" (by decide) (by decide)
  exact ⟨h.2.1, h.2.2.2.1 13 (by decide), h.2.2.2.2.1 5 (some "off") (by decide)⟩

/-- Witness for C8 at a concrete registration and payload. -/
theorem registration_reset_then_notify_once_witness :
    (registerAddress {} "Central Ave" "12").last_marker = some "" ∧
    (∃ m, (monitorStep (registerAddress {} "Central Ave" "12")
      (FetchResult.ok { updateTimestamp := some "09:00" })).2 = [Event.changed m]) := by
  have h := registration_reset_then_notify_once {} "Central Ave" "12"
    { updateTimestamp := some "09:00" } (by decide) (by decide)
  exact ⟨h.1, h.2.2.2⟩

end DTEK
